import Mathlib

/-!
Shallow embedding of `src/app/store/session.ts` (bokesyo/chat-llamaindex).

The TypeScript module coordinates one conversational exchange: it builds a
normalized user message from raw input (plain text, URL, or uploaded file),
assembles the outgoing chat history, appends an optimistic user/placeholder
pair to the session, and reacts to the backend's streaming callbacks
(`onUpdate`, `onFinish`, `onError`, `onController`).

External collaborators (nanoid, Date, the URL/file extractors, prettyObject,
the LLM backend) are modelled as an explicit environment `Env` and a trace of
`BackendEvent`s; everything defined in `session.ts` itself is translated
directly.  JavaScript peculiarities that matter are kept: the falsiness check
on `clearContextIndex` (so the value 0 behaves like "unset"), string
concatenation in `userMessage.id! + 1`, and the fact that the session stores a
shallow *copy* of the user message (`{...userMessage, content}`) while the
placeholder bot message is stored by reference (mutations to it are visible
through `session.messages`).
-/

/-- Message author role.  The source uses the string literals `"user"`,
`"assistant"`, `"system"` and the special `"URL"` marker. -/
inductive Role where
  | user
  | assistant
  | system
  | url
  deriving DecidableEq, Repr

/-- `RequestMessage` from `client/platforms/llm`: the backend-facing shape. -/
structure RequestMessage where
  role : Role
  content : String
  deriving DecidableEq, Repr

/-- `URLDetail` (session.ts lines 11-15): metadata envelope without body. -/
structure URLDetail where
  url : String
  size : Nat
  type : String
  deriving DecidableEq, Repr

/-- `URLDetailContent` (lines 17-19): extractor result.  In the source the
`content` field is optional (`content?: string`); every extractor supplies it
on success, so the model keeps it as a plain field of the success value. -/
structure URLDetailContent where
  url : String
  size : Nat
  type : String
  content : String
  deriving DecidableEq, Repr

/-- `delete urlDetail["content"]` (lines 61 and 97): dropping the body from
the metadata envelope yields a `URLDetail`. -/
def URLDetailContent.toDetail (d : URLDetailContent) : URLDetail :=
  { url := d.url, size := d.size, type := d.type }

/-- `ChatMessage` (lines 21-27). -/
structure ChatMessage where
  id : String
  date : String
  role : Role
  content : String
  streaming : Option Bool
  isError : Option Bool
  urlDetail : Option URLDetail
  deriving DecidableEq, Repr

/-- A `ChatMessage` used where a `RequestMessage` is expected (TS structural
subtyping). -/
def ChatMessage.toRequest (m : ChatMessage) : RequestMessage :=
  { role := m.role, content := m.content }

/-- The `Partial<ChatMessage>` override passed to `createMessage`: absent
fields are `none`. -/
structure MessageOverride where
  id : Option String := none
  date : Option String := none
  role : Option Role := none
  content : Option String := none
  streaming : Option Bool := none
  isError : Option Bool := none
  urlDetail : Option URLDetail := none

/-- A thrown JavaScript `Error`, reduced to its `message`. -/
structure JsError where
  message : String
  deriving DecidableEq, Repr

/-- The `{error: true, message}` object handed to `prettyObject`. -/
structure ErrorObject where
  error : Bool
  message : String
  deriving DecidableEq, Repr

/-- `FileWrap` from `utils/file`: only `extension` is read by session.ts. -/
structure FileWrap where
  extension : String
  name : String
  deriving DecidableEq, Repr

/-- Opaque stand-in for `ModelConfig` from `store/config` (spread unchanged
into the request). -/
abbrev ModelConfig := Unit

/-- `Bot` from `store/bot`: the fields session.ts reads. -/
structure ChatBot where
  context : List RequestMessage
  modelConfig : ModelConfig

/-- `ChatSession` (lines 39-46). -/
structure ChatSession where
  id : String
  messages : List ChatMessage
  clearContextIndex : Option Nat
  bot : ChatBot

/-- External collaborators of session.ts, collected as oracles.  `nanoid` and
`now` give the n-th fresh id / timestamp produced during one call; the
extractors are the narrow interfaces of `utils/url` and `utils/file`;
`prettyObject` is the formatter from `utils/format`. -/
structure Env where
  nanoid : Nat → String
  now : Nat → String
  isURL : String → Bool
  fetchSiteContent : String → Except JsError URLDetailContent
  pdfGetFileDetail : FileWrap → Except JsError URLDetailContent
  plainTextGetFileDetail : FileWrap → Except JsError URLDetailContent
  prettyObject : ErrorObject → String

/-- `createMessage` (lines 29-37): defaults filled from the id/date supply at
index `g`, then the override spread on top. -/
def createMessage (env : Env) (g : Nat) (override : MessageOverride) : ChatMessage :=
  { id := override.id.getD (env.nanoid g),
    date := override.date.getD (env.now g),
    role := override.role.getD Role.user,
    content := override.content.getD "",
    streaming := override.streaming,
    isError := override.isError,
    urlDetail := override.urlDetail }

/-- `getDetailContentFromFile` (lines 76-92): dispatch on the file extension;
anything but `pdf`/`txt` throws `Not supported file type`. -/
def getDetailContentFromFile (env : Env) (file : FileWrap) :
    Except JsError URLDetailContent :=
  if file.extension = "pdf" then env.pdfGetFileDetail file
  else if file.extension = "txt" then env.plainTextGetFileDetail file
  else Except.error { message := "Not supported file type" }

/-- `createFileInputMessage` (lines 94-108): extract, strip the body from the
envelope, store the body as the message content.  The counter records the one
`nanoid`/`Date` consumed by `createMessage`. -/
def createFileInputMessage (env : Env) (g : Nat) (file : FileWrap) :
    Except JsError (ChatMessage × Nat) :=
  match getDetailContentFromFile env file with
  | Except.error e => Except.error e
  | Except.ok fileDetail =>
      Except.ok
        (createMessage env g
          { role := some Role.user,
            content := some fileDetail.content,
            urlDetail := some fileDetail.toDetail },
         g + 1)

/-- `createTextInputMessage` (lines 57-74): URL inputs are fetched and the
extracted body moved into `content` with the stripped envelope attached as
`urlDetail`; anything else is stored verbatim. -/
def createTextInputMessage (env : Env) (g : Nat) (content : String) :
    Except JsError (ChatMessage × Nat) :=
  if env.isURL content then
    match env.fetchSiteContent content with
    | Except.error e => Except.error e
    | Except.ok urlDetail =>
        Except.ok
          (createMessage env g
            { role := some Role.user,
              content := some urlDetail.content,
              urlDetail := some urlDetail.toDetail },
           g + 1)
  else
    Except.ok
      (createMessage env g { role := some Role.user, content := some content }, g + 1)

/-- `createUserMessage` (lines 134-145). -/
def createUserMessage (env : Env) (g : Nat) (content : String)
    (uploadedFile : Option FileWrap) : Except JsError (ChatMessage × Nat) :=
  match uploadedFile with
  | some file => createFileInputMessage env g file
  | none => createTextInputMessage env g content

/-- `transformUserMessageForSending` (lines 110-120): messages carrying a
`urlDetail` are replaced by the fixed summarization instruction. -/
def transformUserMessageForSending (userMessage : ChatMessage) : RequestMessage :=
  match userMessage.urlDetail with
  | none => userMessage.toRequest
  | some _ =>
      { role := userMessage.role,
        content := "Summarize the following text briefly in 200 words or less:\n\n"
          ++ userMessage.content }

/-- `transformAssistantMessageForSending` (lines 122-132): URL-role messages
are re-tagged as plain assistant content. -/
def transformAssistantMessageForSending (message : ChatMessage) : RequestMessage :=
  if message.role ≠ Role.url then message.toRequest
  else { role := Role.assistant, content := message.content }

/-- `error.message.includes("aborted")`: substring containment, decidably. -/
def strIncludes (s pat : String) : Bool :=
  (s.splitOn pat).length > 1

/-- JavaScript truthiness of the optional numeric `clearContextIndex`: both
`undefined` and `0` are falsy. -/
def optNatTruthy : Option Nat → Bool
  | none => false
  | some n => n != 0

/-- The message window of lines 188-190:
`!session.clearContextIndex ? session.messages : session.messages.slice(k)`. -/
def recentWindow (session : ChatSession) : List ChatMessage :=
  if !optNatTruthy session.clearContextIndex then session.messages
  else session.messages.drop (session.clearContextIndex.getD 0)

/-- Formalisation of the spec sentence used by C4 (for comparison with
`recentWindow`): all messages if no clear-context index is set, else the
subsequence from that index onward. -/
def windowSpec (session : ChatSession) : List ChatMessage :=
  match session.clearContextIndex with
  | none => session.messages
  | some k => session.messages.drop k

/-- One entry of the cancellation registry, keyed by (session id, message id).
The handle is an opaque token. -/
structure PoolEntry where
  sessionId : String
  messageId : String
  controller : Nat
  deriving DecidableEq, Repr

/-- Key comparison for registry entries. -/
def poolKeyMatches (sid mid : String) (e : PoolEntry) : Bool :=
  e.sessionId = sid ∧ e.messageId = mid

/-- Modelled from the spec: `ChatControllerPool.addController` from
`client/controller` (not under src/) — register a handle under
(session id, message id), overwriting any entry already present for that
key. -/
def ChatControllerPool.addController (pool : List PoolEntry) (sid mid : String)
    (c : Nat) : List PoolEntry :=
  { sessionId := sid, messageId := mid, controller := c } ::
    pool.filter (fun e => !poolKeyMatches sid mid e)

/-- Modelled from the spec: `ChatControllerPool.remove` from
`client/controller` (not under src/) — drop the entry under
(session id, message id); a no-op if absent. -/
def ChatControllerPool.remove (pool : List PoolEntry) (sid mid : String) :
    List PoolEntry :=
  pool.filter (fun e => !poolKeyMatches sid mid e)

/-- One callback invocation performed by the backend's `chat` operation. -/
inductive BackendEvent where
  | update (message : String)
  | finish (newMessages : List RequestMessage)
  | error (e : JsError)
  | controller (c : Nat)
  deriving DecidableEq, Repr

/-- Events that are not terminal: `onUpdate` and `onController`. -/
def BackendEvent.isStreaming : BackendEvent → Bool
  | .update _ => true
  | .controller _ => true
  | _ => false

/-- Terminal events: `onFinish` and `onError`. -/
def BackendEvent.isTerminal : BackendEvent → Bool
  | .finish _ => true
  | .error _ => true
  | _ => false

/-- The dynamic value of the untyped `result` variable (line 206): the error
paths store a single message, the finish path stores `slice(-1)` of the
normalized list, which is a one-element *array*. -/
inductive CallResult where
  | single (m : ChatMessage)
  | array (l : List ChatMessage)
  deriving DecidableEq, Repr

/-- Mutable state of one exchange while the backend call is in flight.
`userMessage` and `botMessage` are the local objects of `callSession`;
`sessionMessages` is `session.messages`; `notifications` records every
argument passed to `callbacks.onUpdateMessages`; `g` is the fresh-id
counter. -/
structure ExchangeState where
  sessionMessages : List ChatMessage
  userMessage : ChatMessage
  botMessage : ChatMessage
  pool : List PoolEntry
  result : Option CallResult
  notifications : List (List ChatMessage)
  g : Nat
  deriving Repr

/-- In-place mutation of a message object that `session.messages` holds by
reference: the entry with the object's id takes the new value.  (Only the
placeholder bot message is ever both mutated and stored by reference; the
stored user message is a shallow copy, so mutating `userMessage` never goes
through `writeBack`.) -/
def writeBack (l : List ChatMessage) (m : ChatMessage) : List ChatMessage :=
  l.map (fun x => if x.id = m.id then m else x)

/-- Lines 213-216: `botMessage.streaming = true`, and if the partial content
is truthy (a non-empty string) it replaces the placeholder's content. -/
def updatedBot (bot : ChatMessage) (message : String) : ChatMessage :=
  if message ≠ "" then { bot with streaming := some true, content := message }
  else { bot with streaming := some true }

/-- `onUpdate` (lines 212-218): mutate the placeholder and re-notify with a
fresh snapshot (`session.messages.concat()`, same elements). -/
def onUpdateHandler (st : ExchangeState) (message : String) : ExchangeState :=
  { st with
      botMessage := updatedBot st.botMessage message,
      sessionMessages := writeBack st.sessionMessages (updatedBot st.botMessage message),
      notifications := st.notifications
        ++ [writeBack st.sessionMessages (updatedBot st.botMessage message)] }

/-- Lines 220-222: each returned message is re-wrapped through
`createMessage`, consuming one fresh id/date apiece. -/
def normalizeMessages (env : Env) (g : Nat) : List RequestMessage → List ChatMessage
  | [] => []
  | m :: rest =>
      createMessage env g { role := some m.role, content := some m.content } ::
        normalizeMessages env (g + 1) rest

/-- `onFinish` (lines 219-229): replace the last two session entries with the
normalized returned messages, notify, deregister the cancellation entry, and
set `result = newChatMessages.slice(-1)` — a one-element array. -/
def onFinishHandler (env : Env) (sessionId : String) (st : ExchangeState)
    (newMessages : List RequestMessage) : ExchangeState :=
  { st with
      sessionMessages :=
        st.sessionMessages.take (st.sessionMessages.length - 2)
          ++ normalizeMessages env st.g newMessages,
      notifications := st.notifications
        ++ [st.sessionMessages.take (st.sessionMessages.length - 2)
              ++ normalizeMessages env st.g newMessages],
      pool := ChatControllerPool.remove st.pool sessionId st.botMessage.id,
      result := some (CallResult.array
        ((normalizeMessages env st.g newMessages).drop
          ((normalizeMessages env st.g newMessages).length - 1))),
      g := st.g + newMessages.length }

/-- Lines 231-240 applied to the placeholder object: append the formatted
error block to its existing content, stop streaming, and set `isError` to the
negation of the abort check. -/
def erroredBot (env : Env) (bot : ChatMessage) (error : JsError) : ChatMessage :=
  { bot with
      content := bot.content ++ "\n\n"
        ++ env.prettyObject { error := true, message := error.message },
      streaming := some false,
      isError := some (!strIncludes error.message "aborted") }

/-- `onError` (lines 230-246).  The mutated placeholder is visible through
`session.messages` (stored by reference); the mutated `userMessage` is not
(the session holds a copy).  The registry key `botMessage.id ?? messageIndex`
is always `botMessage.id`, since `createMessage` always fills `id`. -/
def onErrorHandler (env : Env) (sessionId : String) (messageIndex : Nat)
    (st : ExchangeState) (error : JsError) : ExchangeState :=
  { st with
      botMessage := erroredBot env st.botMessage error,
      userMessage := { st.userMessage with
        isError := some (!strIncludes error.message "aborted") },
      sessionMessages := writeBack st.sessionMessages (erroredBot env st.botMessage error),
      notifications := st.notifications
        ++ [writeBack st.sessionMessages (erroredBot env st.botMessage error)],
      pool := ChatControllerPool.remove st.pool sessionId
        (erroredBot env st.botMessage error).id,
      result := some (CallResult.single (erroredBot env st.botMessage error)) }

/-- `onController` (lines 247-254): register the handle under
(session id, `botMessage.id ?? messageIndex`); the fallback index is dead
because `id` is always set. -/
def onControllerHandler (sessionId : String) (messageIndex : Nat)
    (st : ExchangeState) (c : Nat) : ExchangeState :=
  { st with
      pool := ChatControllerPool.addController st.pool sessionId st.botMessage.id c }

/-- Dispatch one backend callback. -/
def stepEvent (env : Env) (sessionId : String) (messageIndex : Nat)
    (st : ExchangeState) : BackendEvent → ExchangeState
  | .update m => onUpdateHandler st m
  | .finish ms => onFinishHandler env sessionId st ms
  | .error e => onErrorHandler env sessionId messageIndex st e
  | .controller c => onControllerHandler sessionId messageIndex st c

/-- Run the backend call: fold the callback trace over the exchange state. -/
def runEvents (env : Env) (sessionId : String) (messageIndex : Nat)
    (st : ExchangeState) (events : List BackendEvent) : ExchangeState :=
  events.foldl (stepEvent env sessionId messageIndex) st

/-- Line 198-201: the session stores `{...userMessage, content}` — a shallow
copy with the content restored to the literal raw input. -/
def savedUserMessage (u : ChatMessage) (content : String) : ChatMessage :=
  { u with content := content }

/-- Lines 181-203 of the success path: create the streaming placeholder,
append the saved user message and the placeholder to `session.messages` in a
single reassignment, and issue the one notification. -/
def initialExchangeState (env : Env) (pool0 : List PoolEntry) (session : ChatSession)
    (content : String) (u : ChatMessage) (g1 : Nat) : ExchangeState :=
  { sessionMessages := session.messages
      ++ [savedUserMessage u content,
          createMessage env g1 { role := some Role.assistant, streaming := some true }],
    userMessage := u,
    botMessage := createMessage env g1 { role := some Role.assistant, streaming := some true },
    pool := pool0,
    result := none,
    notifications := [session.messages
      ++ [savedUserMessage u content,
          createMessage env g1 { role := some Role.assistant, streaming := some true }]],
    g := g1 + 1 }

/-- The full streaming phase of one successful exchange: the initial state of
`callSession`'s success path driven through the backend's callback trace,
with `messageIndex = session.messages.length + 1` as on line 195. -/
def exchangeRun (env : Env) (pool0 : List PoolEntry) (session : ChatSession)
    (content : String) (u : ChatMessage) (g1 : Nat)
    (events : List BackendEvent) : ExchangeState :=
  runEvents env session.id (session.messages.length + 1)
    (initialExchangeState env pool0 session content u g1) events

/-- Lines 163-166: the synthetic user message of the extraction-failure path. -/
def errorUserMessage (env : Env) (content : String) : ChatMessage :=
  createMessage env 0 { role := some Role.user, content := some content }

/-- Lines 167-174: the companion bot error message.  `userMessage.id! + 1`
adds the number 1 to a string id, which in JavaScript concatenates the digit:
the bot id is the user id with `"1"` appended. -/
def errorBotMessage (env : Env) (content : String) (error : JsError) : ChatMessage :=
  createMessage env 1
    { role := some Role.assistant,
      id := some ((errorUserMessage env content).id ++ toString 1),
      content := some (env.prettyObject
        { error := true,
          message := if error.message = "" then "Invalid user message"
            else error.message }) }

/-- The request handed to `api.chat` (lines 208-211), with the model config
spread in and `stream: true` forced. -/
structure ChatRequest where
  message : String
  chatHistory : List RequestMessage
  modelConfig : ModelConfig
  stream : Bool

/-- Everything observable about one `callSession` call: the final
`session.messages`, the resolved value, the final registry contents, the
notification log, and the request sent to the backend (`none` when no backend
call was made). -/
structure CallOutcome where
  messages : List ChatMessage
  result : Option CallResult
  pool : List PoolEntry
  notifications : List (List ChatMessage)
  request : Option ChatRequest

/-- `callSession` (lines 147-257), driven by the backend callback trace
`events`.  The failure branch of `createUserMessage` appends a synthetic
error exchange and returns the bot message without calling the backend; the
success branch appends the user/placeholder pair, sends the transformed new
turn together with the assembled history, and folds the callback trace. -/
def callSession (env : Env) (pool0 : List PoolEntry) (session : ChatSession)
    (content : String) (uploadedFile : Option FileWrap)
    (events : List BackendEvent) : CallOutcome :=
  match createUserMessage env 0 content uploadedFile with
  | Except.error error =>
      { messages := session.messages
          ++ [errorUserMessage env content, errorBotMessage env content error],
        result := some (CallResult.single (errorBotMessage env content error)),
        pool := pool0,
        notifications := [session.messages
          ++ [errorUserMessage env content, errorBotMessage env content error]],
        request := none }
  | Except.ok (userMessage, g1) =>
      { messages := (exchangeRun env pool0 session content userMessage g1 events).sessionMessages,
        result := (exchangeRun env pool0 session content userMessage g1 events).result,
        pool := (exchangeRun env pool0 session content userMessage g1 events).pool,
        notifications := (exchangeRun env pool0 session content userMessage g1 events).notifications,
        request := some
          { message := (transformUserMessageForSending userMessage).content,
            chatHistory := session.bot.context
              ++ (recentWindow session).map transformAssistantMessageForSending,
            modelConfig := session.bot.modelConfig,
            stream := true } }

def env0 : Env :=
  { nanoid := fun n => toString n,
    now := fun _ => "date",
    isURL := fun s => s == "http://x",
    fetchSiteContent := fun s =>
      Except.ok { url := s, size := 120, type := "text/html", content := "ARTICLE BODY" },
    pdfGetFileDetail := fun f =>
      Except.ok { url := f.name, size := 1, type := "application/pdf", content := "PDF BODY" },
    plainTextGetFileDetail := fun f =>
      Except.ok { url := f.name, size := 1, type := "text/plain", content := "TXT BODY" },
    prettyObject := fun o => "error block: " ++ o.message }

def session0 : ChatSession :=
  { id := "s", messages := [], clearContextIndex := none,
    bot := { context := [], modelConfig := () } }

def u0 : ChatMessage :=
  { id := "0", date := "date", role := Role.user, content := "hello",
    streaming := none, isError := none, urlDetail := none }

def finMsgs0 : List RequestMessage :=
  [{ role := Role.user, content := "hello" }, { role := Role.assistant, content := "hi there" }]

def events0 : List BackendEvent :=
  [BackendEvent.controller 7, BackendEvent.update "hi"]

def file0 : FileWrap := { extension := "docx", name := "f" }

def d0 : URLDetailContent :=
  { url := "http://x", size := 120, type := "text/html", content := "ARTICLE BODY" }

def u5 : ChatMessage :=
  { id := "0", date := "date", role := Role.user, content := "ARTICLE BODY",
    streaming := none, isError := none,
    urlDetail := some { url := "http://x", size := 120, type := "text/html" } }

theorem runEvents_nil (env : Env) (sid : String) (mi : Nat) (st : ExchangeState) :
    runEvents env sid mi st [] = st := rfl

theorem runEvents_append (env : Env) (sid : String) (mi : Nat) (st : ExchangeState)
    (a b : List BackendEvent) :
    runEvents env sid mi st (a ++ b) = runEvents env sid mi (runEvents env sid mi st a) b :=
  List.foldl_append _ _ _ _

theorem updatedBot_id (bot : ChatMessage) (m : String) : (updatedBot bot m).id = bot.id := by
  unfold updatedBot; split <;> rfl

theorem erroredBot_id (env : Env) (bot : ChatMessage) (e : JsError) :
    (erroredBot env bot e).id = bot.id := rfl

theorem writeBack_skip (l : List ChatMessage) (m : ChatMessage)
    (h : ∀ x ∈ l, x.id ≠ m.id) : writeBack l m = l := by
  induction l with
  | nil => rfl
  | cons a t ih =>
      unfold writeBack at *
      simp only [List.map_cons]
      rw [if_neg (h a (List.mem_cons_self a t)), ih (fun x hx => h x (List.mem_cons_of_mem a hx))]

theorem writeBack_append (a b : List ChatMessage) (m : ChatMessage) :
    writeBack (a ++ b) m = writeBack a m ++ writeBack b m := by
  unfold writeBack; exact List.map_append _ a b

theorem writeBack_pair (su bot m : ChatMessage) (hsu : su.id ≠ m.id) (hbot : bot.id = m.id) :
    writeBack [su, bot] m = [su, m] := by
  unfold writeBack
  simp only [List.map_cons, List.map_nil]
  rw [if_neg hsu, if_pos hbot]

theorem stepEvent_streaming_botId (env : Env) (sid : String) (mi : Nat)
    (st : ExchangeState) (e : BackendEvent) (h : e.isStreaming = true) :
    (stepEvent env sid mi st e).botMessage.id = st.botMessage.id := by
  cases e with
  | update m => exact updatedBot_id st.botMessage m
  | controller c => rfl
  | finish ms => simp [BackendEvent.isStreaming] at h
  | error er => simp [BackendEvent.isStreaming] at h

theorem runEvents_streaming_botId (env : Env) (sid : String) (mi : Nat)
    (events : List BackendEvent) :
    ∀ st : ExchangeState, (∀ e ∈ events, BackendEvent.isStreaming e = true) →
      (runEvents env sid mi st events).botMessage.id = st.botMessage.id := by
  induction events with
  | nil => intro st _; rfl
  | cons e rest ih =>
      intro st hall
      have h1 : runEvents env sid mi st (e :: rest)
          = runEvents env sid mi (stepEvent env sid mi st e) rest := rfl
      rw [h1, ih (stepEvent env sid mi st e) (fun x hx => hall x (List.mem_cons_of_mem e hx)),
        stepEvent_streaming_botId env sid mi st e (hall e (List.mem_cons_self e rest))]

theorem runEvents_streaming_shape (env : Env) (sid : String) (mi : Nat)
    (events : List BackendEvent) (pre : List ChatMessage) (su : ChatMessage) :
    ∀ st : ExchangeState, (∀ e ∈ events, BackendEvent.isStreaming e = true) →
      st.sessionMessages = pre ++ [su, st.botMessage] →
      (∀ m ∈ pre, m.id ≠ st.botMessage.id) →
      su.id ≠ st.botMessage.id →
      (runEvents env sid mi st events).sessionMessages
        = pre ++ [su, (runEvents env sid mi st events).botMessage] := by
  induction events with
  | nil => intro st _ hs _ _; exact hs
  | cons e rest ih =>
      intro st hall hs hpre hsu
      have he : BackendEvent.isStreaming e = true := hall e (List.mem_cons_self e rest)
      have hrest : ∀ x ∈ rest, BackendEvent.isStreaming x = true :=
        fun x hx => hall x (List.mem_cons_of_mem e hx)
      have h1 : runEvents env sid mi st (e :: rest)
          = runEvents env sid mi (stepEvent env sid mi st e) rest := rfl
      rw [h1]
      have hid : (stepEvent env sid mi st e).botMessage.id = st.botMessage.id :=
        stepEvent_streaming_botId env sid mi st e he
      refine ih (stepEvent env sid mi st e) hrest ?_ ?_ ?_
      · cases e with
        | update m =>
            show writeBack st.sessionMessages (updatedBot st.botMessage m)
              = pre ++ [su, updatedBot st.botMessage m]
            rw [hs, writeBack_append,
              writeBack_skip pre _ (fun x hx h => hpre x hx (h.trans (updatedBot_id _ _))),
              writeBack_pair su st.botMessage (updatedBot st.botMessage m)
                (fun h => hsu (h.trans (updatedBot_id _ _))) (updatedBot_id _ _).symm]
        | controller c => exact hs
        | finish ms => simp [BackendEvent.isStreaming] at he
        | error er => simp [BackendEvent.isStreaming] at he
      · intro m hm; rw [hid]; exact hpre m hm
      · rw [hid]; exact hsu

theorem normalizeMessages_length (env : Env) :
    ∀ (g : Nat) (ms : List RequestMessage), (normalizeMessages env g ms).length = ms.length := by
  intro g ms
  induction ms generalizing g with
  | nil => rfl
  | cons m rest ih => simp [normalizeMessages, ih]

theorem callSession_ok (env : Env) (pool0 : List PoolEntry) (session : ChatSession)
    (content : String) (uploadedFile : Option FileWrap) (events : List BackendEvent)
    (u : ChatMessage) (g1 : Nat)
    (hok : createUserMessage env 0 content uploadedFile = Except.ok (u, g1)) :
    callSession env pool0 session content uploadedFile events
      = { messages := (exchangeRun env pool0 session content u g1 events).sessionMessages,
          result := (exchangeRun env pool0 session content u g1 events).result,
          pool := (exchangeRun env pool0 session content u g1 events).pool,
          notifications := (exchangeRun env pool0 session content u g1 events).notifications,
          request := some
            { message := (transformUserMessageForSending u).content,
              chatHistory := session.bot.context
                ++ (recentWindow session).map transformAssistantMessageForSending,
              modelConfig := session.bot.modelConfig,
              stream := true } } := by
  unfold callSession
  rw [hok]

theorem callSession_error (env : Env) (pool0 : List PoolEntry) (session : ChatSession)
    (content : String) (uploadedFile : Option FileWrap) (events : List BackendEvent)
    (err : JsError)
    (hfail : createUserMessage env 0 content uploadedFile = Except.error err) :
    callSession env pool0 session content uploadedFile events
      = { messages := session.messages
            ++ [errorUserMessage env content, errorBotMessage env content err],
          result := some (CallResult.single (errorBotMessage env content err)),
          pool := pool0,
          notifications := [session.messages
            ++ [errorUserMessage env content, errorBotMessage env content err]],
          request := none } := by
  unfold callSession
  rw [hfail]

theorem exchangeRun_snoc (env : Env) (pool0 : List PoolEntry) (session : ChatSession)
    (content : String) (u : ChatMessage) (g1 : Nat) (events : List BackendEvent)
    (e : BackendEvent) :
    exchangeRun env pool0 session content u g1 (events ++ [e])
      = stepEvent env session.id (session.messages.length + 1)
          (exchangeRun env pool0 session content u g1 events) e := by
  unfold exchangeRun
  rw [runEvents_append]
  rfl

theorem exchangeRun_shape (env : Env) (pool0 : List PoolEntry) (session : ChatSession)
    (content : String) (u : ChatMessage) (g1 : Nat) (events : List BackendEvent)
    (hstream : ∀ e ∈ events, BackendEvent.isStreaming e = true)
    (hfresh : ∀ m ∈ session.messages, m.id ≠ env.nanoid g1)
    (hfreshU : u.id ≠ env.nanoid g1) :
    (exchangeRun env pool0 session content u g1 events).sessionMessages
      = session.messages
        ++ [savedUserMessage u content,
            (exchangeRun env pool0 session content u g1 events).botMessage] := by
  exact runEvents_streaming_shape env session.id (session.messages.length + 1) events
    session.messages (savedUserMessage u content)
    (initialExchangeState env pool0 session content u g1) hstream rfl hfresh hfreshU

theorem exchangeRun_botId (env : Env) (pool0 : List PoolEntry) (session : ChatSession)
    (content : String) (u : ChatMessage) (g1 : Nat) (events : List BackendEvent)
    (hstream : ∀ e ∈ events, BackendEvent.isStreaming e = true) :
    (exchangeRun env pool0 session content u g1 events).botMessage.id = env.nanoid g1 :=
  runEvents_streaming_botId env session.id (session.messages.length + 1) events
    (initialExchangeState env pool0 session content u g1) hstream

/-- C2: after `onFinish` fires with N returned messages, the session's message
list equals the list before the terminal event with its last two entries (the
appended user message and the placeholder assistant message) removed and the N
normalized messages appended in their place; its length is the prior length
minus 2 plus N. -/
theorem c2_onFinish_replaces_placeholder_pair (env : Env) (pool0 : List PoolEntry)
    (session : ChatSession) (content : String) (uploadedFile : Option FileWrap)
    (events : List BackendEvent) (msgs : List RequestMessage)
    (u : ChatMessage) (g1 : Nat)
    (hok : createUserMessage env 0 content uploadedFile = Except.ok (u, g1))
    (hstream : ∀ e ∈ events, BackendEvent.isStreaming e = true)
    (hfresh : ∀ m ∈ session.messages, m.id ≠ env.nanoid g1)
    (hfreshU : u.id ≠ env.nanoid g1) :
    (callSession env pool0 session content uploadedFile
        (events ++ [BackendEvent.finish msgs])).messages
      = (exchangeRun env pool0 session content u g1 events).sessionMessages.take
          ((exchangeRun env pool0 session content u g1 events).sessionMessages.length - 2)
        ++ normalizeMessages env (exchangeRun env pool0 session content u g1 events).g msgs
    ∧ (exchangeRun env pool0 session content u g1 events).sessionMessages
        = session.messages
          ++ [savedUserMessage u content,
              (exchangeRun env pool0 session content u g1 events).botMessage]
    ∧ (callSession env pool0 session content uploadedFile
        (events ++ [BackendEvent.finish msgs])).messages.length
      = (exchangeRun env pool0 session content u g1 events).sessionMessages.length - 2
          + msgs.length := by
  have hshape := exchangeRun_shape env pool0 session content u g1 events hstream hfresh hfreshU
  have hcs := callSession_ok env pool0 session content uploadedFile
    (events ++ [BackendEvent.finish msgs]) u g1 hok
  have hmsgs : (callSession env pool0 session content uploadedFile
      (events ++ [BackendEvent.finish msgs])).messages
      = (exchangeRun env pool0 session content u g1 events).sessionMessages.take
          ((exchangeRun env pool0 session content u g1 events).sessionMessages.length - 2)
        ++ normalizeMessages env (exchangeRun env pool0 session content u g1 events).g msgs := by
    rw [hcs]
    show (exchangeRun env pool0 session content u g1
        (events ++ [BackendEvent.finish msgs])).sessionMessages = _
    rw [exchangeRun_snoc]
    rfl
  refine ⟨hmsgs, hshape, ?_⟩
  rw [hmsgs]
  have hlen : (exchangeRun env pool0 session content u g1 events).sessionMessages.length
      = session.messages.length + 2 := by
    rw [hshape]; simp
  rw [List.length_append, List.length_take, normalizeMessages_length, hlen]
  omega

/-- C3: when `onError` fires, the exchange's user and bot message objects get
`isError = true` exactly when the error message does not contain the
`aborted` marker; the placeholder stops streaming and a formatted error block
is appended to its existing content; the call resolves with the bot
message. -/
theorem c3_onError_flags_and_content (env : Env) (pool0 : List PoolEntry)
    (session : ChatSession) (content : String) (uploadedFile : Option FileWrap)
    (events : List BackendEvent) (err : JsError) (u : ChatMessage) (g1 : Nat)
    (hok : createUserMessage env 0 content uploadedFile = Except.ok (u, g1)) :
    (strIncludes err.message "aborted" = false →
        (exchangeRun env pool0 session content u g1
            (events ++ [BackendEvent.error err])).userMessage.isError = some true
      ∧ (exchangeRun env pool0 session content u g1
            (events ++ [BackendEvent.error err])).botMessage.isError = some true)
    ∧ (strIncludes err.message "aborted" = true →
        (exchangeRun env pool0 session content u g1
            (events ++ [BackendEvent.error err])).userMessage.isError = some false
      ∧ (exchangeRun env pool0 session content u g1
            (events ++ [BackendEvent.error err])).botMessage.isError = some false)
    ∧ (exchangeRun env pool0 session content u g1
        (events ++ [BackendEvent.error err])).botMessage.streaming = some false
    ∧ (exchangeRun env pool0 session content u g1
        (events ++ [BackendEvent.error err])).botMessage.content
      = (exchangeRun env pool0 session content u g1 events).botMessage.content
        ++ "\n\n" ++ env.prettyObject { error := true, message := err.message }
    ∧ (callSession env pool0 session content uploadedFile
        (events ++ [BackendEvent.error err])).result
      = some (CallResult.single (exchangeRun env pool0 session content u g1
          (events ++ [BackendEvent.error err])).botMessage) := by
  have hrun := exchangeRun_snoc env pool0 session content u g1 events (BackendEvent.error err)
  refine ⟨?_, ?_, ?_, ?_, ?_⟩
  · intro h; rw [hrun]
    constructor
    · show some (!strIncludes err.message "aborted") = some true
      rw [h]; rfl
    · show some (!strIncludes err.message "aborted") = some true
      rw [h]; rfl
  · intro h; rw [hrun]
    constructor
    · show some (!strIncludes err.message "aborted") = some false
      rw [h]; rfl
    · show some (!strIncludes err.message "aborted") = some false
      rw [h]; rfl
  · rw [hrun]; rfl
  · rw [hrun]; rfl
  · rw [callSession_ok env pool0 session content uploadedFile
      (events ++ [BackendEvent.error err]) u g1 hok]
    rw [hrun]
    rfl

theorem recentWindow_eq_windowSpec (session : ChatSession) :
    recentWindow session = windowSpec session := by
  unfold recentWindow windowSpec
  cases h : session.clearContextIndex with
  | none => rfl
  | some k => cases k with
    | zero => simp [optNatTruthy]
    | succ n => simp [optNatTruthy]

/-- C4: the outgoing history is the bot's context prompts, in order, followed
by the transformed session-message window; the window is all session messages
when no clear-context index is set, and the subsequence from index k onward
when `clearContextIndex = k`, so every message at index < k is excluded. -/
theorem c4_context_window (env : Env) (pool0 : List PoolEntry) (session : ChatSession)
    (content : String) (uploadedFile : Option FileWrap) (events : List BackendEvent)
    (u : ChatMessage) (g1 : Nat)
    (hok : createUserMessage env 0 content uploadedFile = Except.ok (u, g1)) :
    (callSession env pool0 session content uploadedFile events).request
      = some { message := (transformUserMessageForSending u).content,
               chatHistory := session.bot.context
                 ++ (recentWindow session).map transformAssistantMessageForSending,
               modelConfig := session.bot.modelConfig,
               stream := true }
    ∧ recentWindow session = windowSpec session := by
  constructor
  · rw [callSession_ok env pool0 session content uploadedFile events u g1 hok]
  · exact recentWindow_eq_windowSpec session

/-- C5: for a URL-classified input the user message stores the extractor's
returned body as its content, its `urlDetail` is the extraction result with
the content field stripped (a bare `URLDetail`), and the new-turn content
sent to the backend is the fixed summarization instruction, a blank line and
the extracted body. -/
theorem c5_url_input_summarize (env : Env) (pool0 : List PoolEntry)
    (session : ChatSession) (content : String) (events : List BackendEvent)
    (d : URLDetailContent) (u : ChatMessage) (g1 : Nat)
    (hurl : env.isURL content = true)
    (hfetch : env.fetchSiteContent content = Except.ok d)
    (hok : createUserMessage env 0 content none = Except.ok (u, g1)) :
    u.content = d.content
    ∧ u.urlDetail = some d.toDetail
    ∧ (callSession env pool0 session content none events).request
        = some { message := "Summarize the following text briefly in 200 words or less:\n\n"
                   ++ d.content,
                 chatHistory := session.bot.context
                   ++ (recentWindow session).map transformAssistantMessageForSending,
                 modelConfig := session.bot.modelConfig,
                 stream := true } := by
  have hu : u = createMessage env 0
      { role := some Role.user, content := some d.content,
        urlDetail := some d.toDetail } := by
    unfold createUserMessage createTextInputMessage at hok
    rw [if_pos hurl, hfetch] at hok
    simp only [Except.ok.injEq, Prod.mk.injEq] at hok
    exact hok.1.symm
  refine ⟨by rw [hu]; rfl, by rw [hu]; rfl, ?_⟩
  rw [callSession_ok env pool0 session content none events u g1 hok, hu]
  rfl

/-- C6: an unsupported file extension fails with the extraction error `Not
supported file type`, no backend call is made, and the session gains exactly
one user message carrying the raw input and one assistant message whose
content is the pretty-printed error object, followed by one update
notification. -/
theorem c6_unsupported_extension (env : Env) (pool0 : List PoolEntry)
    (session : ChatSession) (content : String) (events : List BackendEvent)
    (file : FileWrap)
    (hpdf : file.extension ≠ "pdf") (htxt : file.extension ≠ "txt") :
    callSession env pool0 session content (some file) events
      = { messages := session.messages
            ++ [errorUserMessage env content,
                errorBotMessage env content { message := "Not supported file type" }],
          result := some (CallResult.single
            (errorBotMessage env content { message := "Not supported file type" })),
          pool := pool0,
          notifications := [session.messages
            ++ [errorUserMessage env content,
                errorBotMessage env content { message := "Not supported file type" }]],
          request := none }
    ∧ (errorUserMessage env content).role = Role.user
    ∧ (errorUserMessage env content).content = content
    ∧ (errorBotMessage env content { message := "Not supported file type" }).role
        = Role.assistant
    ∧ (errorBotMessage env content { message := "Not supported file type" }).content
        = env.prettyObject { error := true, message := "Not supported file type" } := by
  have hfail : createUserMessage env 0 content (some file)
      = Except.error { message := "Not supported file type" } := by
    show createFileInputMessage env 0 file = _
    unfold createFileInputMessage getDetailContentFromFile
    rw [if_neg hpdf, if_neg htxt]
  refine ⟨callSession_error env pool0 session content (some file) events _ hfail,
    rfl, rfl, rfl, ?_⟩
  show (some (env.prettyObject
      { error := true,
        message := if ("Not supported file type" : String) = "" then "Invalid user message"
          else "Not supported file type" })).getD "" = _
  rw [if_neg (by decide : ¬("Not supported file type" : String) = "")]
  rfl

/-- C7: whichever terminal hook fires, the cancellation entry for this
exchange — registered by `onController` under (session id, placeholder id) —
is removed under that same key, so no entry for the exchange survives the
call. -/
theorem c7_pool_removed_on_terminal (env : Env) (pool0 : List PoolEntry)
    (session : ChatSession) (content : String) (uploadedFile : Option FileWrap)
    (events : List BackendEvent) (term : BackendEvent) (u : ChatMessage) (g1 : Nat)
    (hok : createUserMessage env 0 content uploadedFile = Except.ok (u, g1))
    (hstream : ∀ e ∈ events, BackendEvent.isStreaming e = true)
    (hterm : term.isTerminal = true) :
    ∀ p ∈ (callSession env pool0 session content uploadedFile (events ++ [term])).pool,
      ¬(p.sessionId = session.id ∧ p.messageId = env.nanoid g1) := by
  intro p hp hkey
  rw [callSession_ok env pool0 session content uploadedFile (events ++ [term]) u g1 hok] at hp
  have hbid := exchangeRun_botId env pool0 session content u g1 events hstream
  rw [exchangeRun_snoc] at hp
  cases term with
  | finish ms =>
      have hf := (List.mem_filter.mp hp).2
      rw [hbid] at hf
      simp only [poolKeyMatches, Bool.not_eq_true', decide_eq_false_iff_not] at hf
      exact hf hkey
  | error er =>
      have hf := (List.mem_filter.mp hp).2
      rw [erroredBot_id, hbid] at hf
      simp only [poolKeyMatches, Bool.not_eq_true', decide_eq_false_iff_not] at hf
      exact hf hkey
  | update m => simp [BackendEvent.isTerminal] at hterm
  | controller c => simp [BackendEvent.isTerminal] at hterm

/-- C8: the user message appended to the session carries the literal raw
input as its content, and it is appended together with the placeholder
assistant message in a single reassignment of `session.messages`, followed by
exactly one update notification. -/
theorem c8_saved_user_message_raw_content (env : Env) (pool0 : List PoolEntry)
    (session : ChatSession) (content : String) (uploadedFile : Option FileWrap)
    (u : ChatMessage) (g1 : Nat)
    (hok : createUserMessage env 0 content uploadedFile = Except.ok (u, g1)) :
    (callSession env pool0 session content uploadedFile []).messages
      = session.messages
        ++ [savedUserMessage u content,
            (initialExchangeState env pool0 session content u g1).botMessage]
    ∧ (callSession env pool0 session content uploadedFile []).notifications
      = [session.messages
          ++ [savedUserMessage u content,
              (initialExchangeState env pool0 session content u g1).botMessage]]
    ∧ (savedUserMessage u content).content = content := by
  rw [callSession_ok env pool0 session content uploadedFile [] u g1 hok]
  exact ⟨rfl, rfl, rfl⟩

/-- C9: in the error exchange synthesized when user-message construction
fails, the bot message id is the user message id with the digit 1 appended —
the JavaScript evaluation of `userMessage.id! + 1` on string ids. -/
theorem c9_error_bot_id_derived (env : Env) (pool0 : List PoolEntry)
    (session : ChatSession) (content : String) (uploadedFile : Option FileWrap)
    (events : List BackendEvent) (err : JsError)
    (hfail : createUserMessage env 0 content uploadedFile = Except.error err) :
    (callSession env pool0 session content uploadedFile events).messages
      = session.messages ++ [errorUserMessage env content, errorBotMessage env content err]
    ∧ (errorBotMessage env content err).id
      = (errorUserMessage env content).id ++ toString 1 := by
  rw [callSession_error env pool0 session content uploadedFile events err hfail]
  exact ⟨rfl, rfl⟩

/-- C10: the chat history sent with the request is assembled from the session
message list as it was before the user/placeholder pair was appended: it is
the context prompts plus the transformed window drawn from that prior list,
and neither the saved user message nor the placeholder occurs in the
window. -/
theorem c10_history_excludes_new_turn (env : Env) (pool0 : List PoolEntry)
    (session : ChatSession) (content : String) (uploadedFile : Option FileWrap)
    (events : List BackendEvent) (u : ChatMessage) (g1 : Nat)
    (hok : createUserMessage env 0 content uploadedFile = Except.ok (u, g1))
    (hfreshU : ∀ m ∈ session.messages, m.id ≠ u.id)
    (hfreshB : ∀ m ∈ session.messages, m.id ≠ env.nanoid g1) :
    (callSession env pool0 session content uploadedFile events).request
      = some { message := (transformUserMessageForSending u).content,
               chatHistory := session.bot.context
                 ++ (recentWindow session).map transformAssistantMessageForSending,
               modelConfig := session.bot.modelConfig,
               stream := true }
    ∧ List.Sublist (recentWindow session) session.messages
    ∧ savedUserMessage u content ∉ recentWindow session
    ∧ (initialExchangeState env pool0 session content u g1).botMessage
        ∉ recentWindow session := by
  have hsub : List.Sublist (recentWindow session) session.messages := by
    unfold recentWindow
    split
    · exact List.Sublist.refl _
    · exact List.drop_sublist _ _
  refine ⟨?_, hsub, ?_, ?_⟩
  · rw [callSession_ok env pool0 session content uploadedFile events u g1 hok]
  · intro hmem
    exact hfreshU (savedUserMessage u content) (hsub.subset hmem) rfl
  · intro hmem
    exact hfreshB _ (hsub.subset hmem) rfl

/-- C1 evaluation: on a trace whose terminal event is `onFinish`, the value
`callSession` resolves with is `newChatMessages.slice(-1)` — a one-element
array holding the last normalized message — and not that message itself,
although the declared return type is `Promise of ChatMessage or undefined`. -/
theorem c1_finish_result_is_singleton_array :
    (callSession env0 [] session0 "hello" none
        [BackendEvent.finish [{ role := Role.user, content := "hello" },
                              { role := Role.assistant, content := "hi" }]]).result
      = some (CallResult.array
          [{ id := "3", date := "date", role := Role.assistant, content := "hi",
             streaming := none, isError := none, urlDetail := none }]) := by decide

theorem c2_witness :
    (callSession env0 [] session0 "hello" none
        (events0 ++ [BackendEvent.finish finMsgs0])).messages
      = (exchangeRun env0 [] session0 "hello" u0 1 events0).sessionMessages.take
          ((exchangeRun env0 [] session0 "hello" u0 1 events0).sessionMessages.length - 2)
        ++ normalizeMessages env0 (exchangeRun env0 [] session0 "hello" u0 1 events0).g finMsgs0
    ∧ (exchangeRun env0 [] session0 "hello" u0 1 events0).sessionMessages
        = session0.messages
          ++ [savedUserMessage u0 "hello",
              (exchangeRun env0 [] session0 "hello" u0 1 events0).botMessage]
    ∧ (callSession env0 [] session0 "hello" none
        (events0 ++ [BackendEvent.finish finMsgs0])).messages.length
      = (exchangeRun env0 [] session0 "hello" u0 1 events0).sessionMessages.length - 2
          + finMsgs0.length :=
  c2_onFinish_replaces_placeholder_pair env0 [] session0 "hello" none events0 finMsgs0 u0 1
    rfl (by decide) (by decide) (by decide)

theorem c3_witness :
    (strIncludes (JsError.mk "boom").message "aborted" = false →
        (exchangeRun env0 [] session0 "hello" u0 1
            (events0 ++ [BackendEvent.error (JsError.mk "boom")])).userMessage.isError = some true
      ∧ (exchangeRun env0 [] session0 "hello" u0 1
            (events0 ++ [BackendEvent.error (JsError.mk "boom")])).botMessage.isError = some true)
    ∧ (strIncludes (JsError.mk "boom").message "aborted" = true →
        (exchangeRun env0 [] session0 "hello" u0 1
            (events0 ++ [BackendEvent.error (JsError.mk "boom")])).userMessage.isError = some false
      ∧ (exchangeRun env0 [] session0 "hello" u0 1
            (events0 ++ [BackendEvent.error (JsError.mk "boom")])).botMessage.isError = some false)
    ∧ (exchangeRun env0 [] session0 "hello" u0 1
        (events0 ++ [BackendEvent.error (JsError.mk "boom")])).botMessage.streaming = some false
    ∧ (exchangeRun env0 [] session0 "hello" u0 1
        (events0 ++ [BackendEvent.error (JsError.mk "boom")])).botMessage.content
      = (exchangeRun env0 [] session0 "hello" u0 1 events0).botMessage.content
        ++ "\n\n" ++ env0.prettyObject { error := true, message := (JsError.mk "boom").message }
    ∧ (callSession env0 [] session0 "hello" none
        (events0 ++ [BackendEvent.error (JsError.mk "boom")])).result
      = some (CallResult.single (exchangeRun env0 [] session0 "hello" u0 1
          (events0 ++ [BackendEvent.error (JsError.mk "boom")])).botMessage) :=
  c3_onError_flags_and_content env0 [] session0 "hello" none events0 (JsError.mk "boom") u0 1 rfl

theorem c4_witness :
    (callSession env0 [] session0 "hello" none events0).request
      = some { message := (transformUserMessageForSending u0).content,
               chatHistory := session0.bot.context
                 ++ (recentWindow session0).map transformAssistantMessageForSending,
               modelConfig := session0.bot.modelConfig,
               stream := true }
    ∧ recentWindow session0 = windowSpec session0 :=
  c4_context_window env0 [] session0 "hello" none events0 u0 1 rfl

theorem c5_witness :
    u5.content = d0.content
    ∧ u5.urlDetail = some d0.toDetail
    ∧ (callSession env0 [] session0 "http://x" none events0).request
        = some { message := "Summarize the following text briefly in 200 words or less:\n\n"
                   ++ d0.content,
                 chatHistory := session0.bot.context
                   ++ (recentWindow session0).map transformAssistantMessageForSending,
                 modelConfig := session0.bot.modelConfig,
                 stream := true } :=
  c5_url_input_summarize env0 [] session0 "http://x" events0 d0 u5 1 (by decide) rfl rfl

theorem c6_witness :
    callSession env0 [] session0 "hello" (some file0) events0
      = { messages := session0.messages
            ++ [errorUserMessage env0 "hello",
                errorBotMessage env0 "hello" { message := "Not supported file type" }],
          result := some (CallResult.single
            (errorBotMessage env0 "hello" { message := "Not supported file type" })),
          pool := [],
          notifications := [session0.messages
            ++ [errorUserMessage env0 "hello",
                errorBotMessage env0 "hello" { message := "Not supported file type" }]],
          request := none }
    ∧ (errorUserMessage env0 "hello").role = Role.user
    ∧ (errorUserMessage env0 "hello").content = "hello"
    ∧ (errorBotMessage env0 "hello" { message := "Not supported file type" }).role
        = Role.assistant
    ∧ (errorBotMessage env0 "hello" { message := "Not supported file type" }).content
        = env0.prettyObject { error := true, message := "Not supported file type" } :=
  c6_unsupported_extension env0 [] session0 "hello" events0 file0 (by decide) (by decide)

theorem c7_witness :
    ¬((⟨"s", "1", 5⟩ : PoolEntry)
        ∈ (callSession env0 [] session0 "hello" none
            ([BackendEvent.controller 5] ++ [BackendEvent.finish finMsgs0])).pool) :=
  fun hmem =>
    c7_pool_removed_on_terminal env0 [] session0 "hello" none
      [BackendEvent.controller 5] (BackendEvent.finish finMsgs0) u0 1
      rfl (by decide) rfl ⟨"s", "1", 5⟩ hmem ⟨rfl, by decide⟩

theorem c8_witness :
    (callSession env0 [] session0 "hello" none []).messages
      = session0.messages
        ++ [savedUserMessage u0 "hello",
            (initialExchangeState env0 [] session0 "hello" u0 1).botMessage]
    ∧ (callSession env0 [] session0 "hello" none []).notifications
      = [session0.messages
          ++ [savedUserMessage u0 "hello",
              (initialExchangeState env0 [] session0 "hello" u0 1).botMessage]]
    ∧ (savedUserMessage u0 "hello").content = "hello" :=
  c8_saved_user_message_raw_content env0 [] session0 "hello" none u0 1 rfl

theorem c9_witness :
    (callSession env0 [] session0 "raw" (some file0) events0).messages
      = session0.messages
        ++ [errorUserMessage env0 "raw",
            errorBotMessage env0 "raw" { message := "Not supported file type" }]
    ∧ (errorBotMessage env0 "raw" { message := "Not supported file type" }).id
      = (errorUserMessage env0 "raw").id ++ toString 1 :=
  c9_error_bot_id_derived env0 [] session0 "raw" (some file0) events0
    { message := "Not supported file type" } rfl

theorem c10_witness :
    (callSession env0 [] session0 "hello" none events0).request
      = some { message := (transformUserMessageForSending u0).content,
               chatHistory := session0.bot.context
                 ++ (recentWindow session0).map transformAssistantMessageForSending,
               modelConfig := session0.bot.modelConfig,
               stream := true }
    ∧ List.Sublist (recentWindow session0) session0.messages
    ∧ savedUserMessage u0 "hello" ∉ recentWindow session0
    ∧ (initialExchangeState env0 [] session0 "hello" u0 1).botMessage
        ∉ recentWindow session0 :=
  c10_history_excludes_new_turn env0 [] session0 "hello" none events0 u0 1
    rfl (by decide) (by decide)
